import Mathlib

/-!
# Verification of the KLV parser/builder core

Shallow embedding of the Key-Length-Value engine from
`src/utils/KLVParser.ts`: the static lookup tables (`definitions`,
`currencyMapping`, `mccMapping`), the value decorators (`formatCurrency`,
`formatMCC`), the scanner (`parse`), the wrapper (`validate`), the
serializer (`build`) and the delimited exporter (`exportCSV`).

JavaScript strings are modelled as Lean `String`s viewed as lists of
characters (one `Char` per UTF-16 code unit of the original); `String.length`
models `.length`, `List.take`/`List.drop` model `substring`.  The `while` loop
of `parse` advances its cursor by at least five characters per iteration, so
it is modelled by structural recursion on a fuel argument that `parse`
instantiates with one more than the buffer length, which is provably
sufficient.
-/

set_option maxRecDepth 4000

/-- Characters matched by the JavaScript regular expression `\s`
(used by `parse` and `validate` in `raw.replace(/\s/g, '')`). -/
def isJSWhitespace (c : Char) : Bool :=
  let n := c.toNat
  n == 9 || n == 10 || n == 11 || n == 12 || n == 13 || n == 32 ||
  n == 0xa0 || n == 0x1680 || (0x2000 ≤ n && n ≤ 0x200a) ||
  n == 0x2028 || n == 0x2029 || n == 0x202f || n == 0x205f ||
  n == 0x3000 || n == 0xfeff

/-- An ASCII decimal digit, as matched by `\d` in the format regexes. -/
def isASCIIDigit (c : Char) : Bool :=
  48 ≤ c.toNat && c.toNat ≤ 57

/-- The test performed by `/^\d{n}$/.test(s)` on a list of characters. -/
def isDigits (n : Nat) (l : List Char) : Bool :=
  l.length == n && l.all isASCIIDigit

/-- `String.prototype.padStart(n, c)` for a single padding character. -/
def padStart (s : String) (n : Nat) (c : Char) : String :=
  ⟨List.replicate (n - s.length) c ++ s.toList⟩

/-- `parseInt(s, 10)` restricted to all-digit strings: the decimal value
of a list of digit characters. -/
def digitsToNat (l : List Char) : Nat :=
  l.foldl (fun a c => 10 * a + (c.toNat - 48)) 0

/-- The character list left after `raw.replace(/\s/g, '')`: the cleaned
buffer that `parse` scans and whose length `validate` reports. -/
def stripWS (s : String) : List Char :=
  s.toList.filter (fun c => !(isJSWhitespace c))

/-- `currencyInfo` payload (`{code, name, flag}` in the TS interface,
written in the field order of the `currencyMapping` literals). -/
structure CurrencyInfo where
  name : String
  code : String
  flag : String
deriving DecidableEq, Repr

/-- `mccInfo` payload of a decorated entry. -/
structure MCCInfo where
  code : String
  description : String
deriving DecidableEq, Repr

/-- One parsed KLV entry (interface `KLVEntry`). -/
structure KLVEntry where
  key : String
  len : Nat
  value : String
  pos : Nat
  name : String
  formattedValue : Option String := none
  currencyInfo : Option CurrencyInfo := none
  mccInfo : Option MCCInfo := none
deriving DecidableEq, Repr

/-- Result of `parse` (interface `KLVParseResult`). -/
structure KLVParseResult where
  results : List KLVEntry
  errors : List String
deriving DecidableEq, Repr

/-- Result of `validate` (interface `KLVValidationResult`). -/
structure KLVValidationResult where
  isValid : Bool
  entriesCount : Nat
  errors : List String
  totalLength : Nat
deriving DecidableEq, Repr

/-- Input entry of `build` (interface `KLVBuildEntry`). -/
structure KLVBuildEntry where
  key : String
  value : String
deriving DecidableEq, Repr
/-- The static field directory: 3-digit key to field name (KLVParser.definitions). -/
def definitions : List (String × String) := [
  ("002", "Tracking Number"),
  ("004", "Original Transaction Amount"),
  ("010", "Conversion Rate"),
  ("026", "Merchant Category Code"),
  ("032", "Acquiring Institution Code"),
  ("037", "Retrieval Reference Number"),
  ("041", "Terminal ID"),
  ("042", "Merchant Identifier"),
  ("043", "Merchant Description"),
  ("044", "Merchant Name"),
  ("045", "Transaction Type Identifier"),
  ("048", "Fraud Scoring Data"),
  ("049", "Original Currency Code"),
  ("050", "From Account"),
  ("052", "Pin Block"),
  ("061", "POS Data"),
  ("063", "TraceID"),
  ("067", "Extended Payment Code"),
  ("068", "Is Recurring"),
  ("069", "Message Reason Code"),
  ("085", "Markup Amount"),
  ("108", "Recipient Name"),
  ("109", "Recipient Address"),
  ("110", "Recipient Account Number"),
  ("111", "Recipient Account Number Type"),
  ("250", "Capture Mode"),
  ("251", "Network"),
  ("252", "Fee Type"),
  ("253", "Last Four Digits PAN"),
  ("254", "MDES Digitized PAN"),
  ("255", "MDES Digitized Wallet ID"),
  ("256", "Adjustment Reason"),
  ("257", "Reference ID"),
  ("258", "Markup Type"),
  ("259", "Acquirer Country"),
  ("260", "Mobile Number"),
  ("261", "Transaction Fee Amount"),
  ("262", "Transaction Subtype"),
  ("263", "Card Issuer Data"),
  ("264", "Tax"),
  ("265", "Tax Amount Base"),
  ("266", "Retailer Data"),
  ("267", "IAC Tax Amount"),
  ("268", "Number of Installments"),
  ("269", "Customer ID"),
  ("270", "Security Services Data"),
  ("271", "On Behalf of Services"),
  ("272", "Original Merchant Description"),
  ("273", "Installments Financing Type"),
  ("274", "Status"),
  ("275", "Installments Grace Period"),
  ("276", "Installments Type of Credit"),
  ("277", "Payments Initiator"),
  ("278", "Payment Initiator Subtype"),
  ("300", "Additional Amount"),
  ("301", "Second Additional Amount"),
  ("302", "Cashback POS Currency Code"),
  ("303", "Cashback POS Amount"),
  ("400", "Sender Name"),
  ("401", "Sender Address"),
  ("402", "Sender City"),
  ("403", "Sender State"),
  ("404", "Sender Country"),
  ("405", "Sanction Screening Score"),
  ("406", "Business Application Identifier"),
  ("408", "Special Condition Indicator"),
  ("409", "Business Tax ID"),
  ("410", "Individual Tax ID"),
  ("411", "Source of Funds"),
  ("412", "Sender Account Number"),
  ("413", "Sender Account Number Type"),
  ("414", "MVV"),
  ("415", "Sender Reference Number"),
  ("416", "Is AFD Transaction"),
  ("417", "Acquirer Fee Amount"),
  ("418", "Address Verification Result"),
  ("419", "Postal Code / ZIP Code"),
  ("420", "Street Address"),
  ("421", "Sender Date of Birth"),
  ("422", "OCT Activity Check Result"),
  ("423", "Sender Postal Code"),
  ("424", "Recipient City"),
  ("425", "Recipient Country"),
  ("900", "3D Secure OTP"),
  ("901", "Digitization Activation"),
  ("902", "Digitization Activation Method Type"),
  ("903", "Digitization Activation Method Value"),
  ("904", "Digitization Activation Expiry"),
  ("905", "Digitization Final Tokenization Decision"),
  ("906", "Device Name"),
  ("910", "Digitized Device ID"),
  ("911", "Digitized PAN Expiry"),
  ("912", "Digitized FPAN Masked"),
  ("913", "Token Unique Reference"),
  ("915", "Digitized Token Requestor ID"),
  ("916", "Visa Digitized PAN"),
  ("917", "Visa Token Type"),
  ("920", "POS Transaction Status"),
  ("921", "POS Transaction Security"),
  ("922", "POS Authorisation Lifecycle"),
  ("923", "Digitization Event Type"),
  ("924", "Digitization Event Reason Code"),
  ("925", "Supports Partial Auth"),
  ("929", "Digitization Path"),
  ("930", "Wallet Recommendation"),
  ("931", "Tokenization PAN Source"),
  ("932", "Unique Transaction Reference"),
  ("933", "Transaction Purpose"),
  ("934", "3D Secure OTP RefCode"),
  ("999", "Generic Key")]

/-- ISO 4217 numeric currency code table (KLVParser.currencyMapping). -/
def currencyMapping : List (String × CurrencyInfo) := [
  ("840", ⟨"US Dollar", "USD", "🇺🇸"⟩),
  ("978", ⟨"Euro", "EUR", "🇪🇺"⟩),
  ("826", ⟨"Pound Sterling", "GBP", "🇬🇧"⟩),
  ("392", ⟨"Japanese Yen", "JPY", "🇯🇵"⟩),
  ("756", ⟨"Swiss Franc", "CHF", "🇨🇭"⟩),
  ("124", ⟨"Canadian Dollar", "CAD", "🇨🇦"⟩),
  ("036", ⟨"Australian Dollar", "AUD", "🇦🇺"⟩),
  ("554", ⟨"New Zealand Dollar", "NZD", "🇳🇿"⟩),
  ("156", ⟨"Chinese Yuan", "CNY", "🇨🇳"⟩),
  ("356", ⟨"Indian Rupee", "INR", "🇮🇳"⟩),
  ("752", ⟨"Swedish Krona", "SEK", "🇸🇪"⟩),
  ("578", ⟨"Norwegian Krone", "NOK", "🇳🇴"⟩),
  ("208", ⟨"Danish Krone", "DKK", "🇩🇰"⟩),
  ("985", ⟨"Polish Zloty", "PLN", "🇵🇱"⟩),
  ("203", ⟨"Czech Koruna", "CZK", "🇨🇿"⟩),
  ("348", ⟨"Hungarian Forint", "HUF", "🇭🇺"⟩),
  ("946", ⟨"Romanian Leu", "RON", "🇷🇴"⟩),
  ("975", ⟨"Bulgarian Lev", "BGN", "🇧🇬"⟩),
  ("191", ⟨"Croatian Kuna", "HRK", "🇭🇷"⟩),
  ("941", ⟨"Serbian Dinar", "RSD", "🇷🇸"⟩),
  ("702", ⟨"Singapore Dollar", "SGD", "🇸🇬"⟩),
  ("344", ⟨"Hong Kong Dollar", "HKD", "🇭🇰"⟩),
  ("410", ⟨"Korean Won", "KRW", "🇰🇷"⟩),
  ("764", ⟨"Thai Baht", "THB", "🇹🇭"⟩),
  ("458", ⟨"Malaysian Ringgit", "MYR", "🇲🇾"⟩),
  ("360", ⟨"Indonesian Rupiah", "IDR", "🇮🇩"⟩),
  ("608", ⟨"Philippine Peso", "PHP", "🇵🇭"⟩),
  ("704", ⟨"Vietnamese Dong", "VND", "🇻🇳"⟩),
  ("096", ⟨"Brunei Dollar", "BND", "🇧🇳"⟩),
  ("484", ⟨"Mexican Peso", "MXN", "🇲🇽"⟩),
  ("986", ⟨"Brazilian Real", "BRL", "🇧🇷"⟩),
  ("032", ⟨"Argentine Peso", "ARS", "🇦🇷"⟩),
  ("152", ⟨"Chilean Peso", "CLP", "🇨🇱"⟩),
  ("604", ⟨"Peruvian Sol", "PEN", "🇵🇪"⟩),
  ("170", ⟨"Colombian Peso", "COP", "🇨🇴"⟩),
  ("858", ⟨"Uruguayan Peso", "UYU", "🇺🇾"⟩),
  ("600", ⟨"Paraguayan Guarani", "PYG", "🇵🇾"⟩),
  ("068", ⟨"Bolivian Boliviano", "BOB", "🇧🇴"⟩),
  ("218", ⟨"Ecuadorian Sucre", "ECS", "🇪🇨"⟩),
  ("784", ⟨"UAE Dirham", "AED", "🇦🇪"⟩),
  ("682", ⟨"Saudi Riyal", "SAR", "🇸🇦"⟩),
  ("376", ⟨"Israeli New Shekel", "ILS", "🇮🇱"⟩),
  ("818", ⟨"Egyptian Pound", "EGP", "🇪🇬"⟩),
  ("710", ⟨"South African Rand", "ZAR", "🇿🇦"⟩),
  ("566", ⟨"Nigerian Naira", "NGN", "🇳🇬"⟩),
  ("404", ⟨"Kenyan Shilling", "KES", "🇰🇪"⟩),
  ("788", ⟨"Tunisian Dinar", "TND", "🇹🇳"⟩),
  ("504", ⟨"Moroccan Dirham", "MAD", "🇲🇦"⟩),
  ("012", ⟨"Algerian Dinar", "DZD", "🇩🇿"⟩),
  ("643", ⟨"Russian Ruble", "RUB", "🇷🇺"⟩),
  ("980", ⟨"Ukrainian Hryvnia", "UAH", "🇺🇦"⟩),
  ("398", ⟨"Kazakhstani Tenge", "KZT", "🇰🇿"⟩),
  ("051", ⟨"Armenian Dram", "AMD", "🇦🇲"⟩),
  ("031", ⟨"Azerbaijani Manat", "AZN", "🇦🇿"⟩),
  ("934", ⟨"Turkmenistani Manat", "TMT", "🇹🇲"⟩),
  ("860", ⟨"Uzbekistani Som", "UZS", "🇺🇿"⟩),
  ("417", ⟨"Kyrgyzstani Som", "KGS", "🇰🇬"⟩),
  ("972", ⟨"Tajikistani Somoni", "TJS", "🇹🇯"⟩),
  ("949", ⟨"Turkish Lira", "TRY", "🇹🇷"⟩),
  ("364", ⟨"Iranian Rial", "IRR", "🇮🇷"⟩),
  ("368", ⟨"Iraqi Dinar", "IQD", "🇮🇶"⟩),
  ("414", ⟨"Kuwaiti Dinar", "KWD", "🇰🇼"⟩),
  ("048", ⟨"Bahraini Dinar", "BHD", "🇧🇭"⟩),
  ("634", ⟨"Qatari Rial", "QAR", "🇶🇦"⟩),
  ("512", ⟨"Omani Rial", "OMR", "🇴🇲"⟩),
  ("422", ⟨"Lebanese Pound", "LBP", "🇱🇧"⟩),
  ("400", ⟨"Jordanian Dinar", "JOD", "🇯🇴"⟩)]

/-- Merchant category code table (KLVParser.mccMapping). -/
def mccMapping : List (String × String) := [
  ("0742", "Veterinary Services"),
  ("0763", "Agricultural Cooperative"),
  ("0780", "Horticultural and Landscaping Services"),
  ("1520", "General Contractors - Residential and Commercial"),
  ("1711", "Heating, Plumbing, Air Conditioning Contractors"),
  ("1731", "Electrical Contractors"),
  ("1740", "Masonry, Stonework, Tile Setting, Plastering, and Insulation Contractors"),
  ("1750", "Carpentry Contractors"),
  ("1761", "Roofing, Siding, and Sheet Metal Work Contractors"),
  ("1771", "Concrete Work Contractors"),
  ("1799", "Special Trade Contractors - Not Elsewhere Classified"),
  ("3000", "United Airlines"),
  ("3001", "American Airlines"),
  ("3002", "Pan American"),
  ("3003", "Alitalia"),
  ("3004", "Delta Air Lines"),
  ("3005", "British Airways"),
  ("3006", "Japan Air Lines"),
  ("3007", "Air France"),
  ("3008", "Lufthansa"),
  ("3009", "Air Canada"),
  ("3010", "KLM Royal Dutch Airlines"),
  ("3011", "Aeroflot Russian International Airlines"),
  ("3012", "Qantas Airways"),
  ("3013", "Alaskan Airlines"),
  ("3014", "North West Airlines"),
  ("3015", "Braniff International Airways"),
  ("3016", "Southwest Airlines"),
  ("3017", "Continental Airlines"),
  ("3018", "Federal Express Corporation"),
  ("3019", "US Airways"),
  ("3020", "Air New Zealand"),
  ("3021", "Singapore Airlines"),
  ("3022", "SAS"),
  ("3023", "Eastern Airlines"),
  ("3024", "America West Airlines"),
  ("3025", "Philippines Airlines"),
  ("3026", "China Airlines"),
  ("3027", "Air India"),
  ("3028", "Korean Air Lines"),
  ("3029", "Malaysian Airlines"),
  ("3030", "Thai Airways International"),
  ("3031", "Sabena Belgian World Airlines"),
  ("3032", "United Parcel Service"),
  ("3033", "Airborne Express"),
  ("3034", "DHL Airways"),
  ("3035", "Helicopter Airlines"),
  ("3036", "Varig Brazilian Airlines"),
  ("3037", "Icelandair"),
  ("3038", "Air Malta"),
  ("3039", "Egyptian Air"),
  ("3040", "Ansett Airlines"),
  ("3041", "Pakistan International Airlines"),
  ("3042", "Virgin Atlantic Airways"),
  ("3043", "Virgin America"),
  ("3044", "Spirit Airlines"),
  ("3045", "Air Berlin"),
  ("3046", "Swiss International Air Lines"),
  ("3047", "Turkish Airlines"),
  ("3048", "Austrian Airlines Group"),
  ("3049", "LOT Polish Airlines"),
  ("3050", "Hainan Airlines"),
  ("3051", "Air China"),
  ("3052", "China Eastern Airlines"),
  ("3053", "China Southern Airlines"),
  ("3054", "Xiamen Airlines"),
  ("3055", "ANA All Nippon Airways"),
  ("3056", "Asiana Airlines"),
  ("3057", "Cebu Pacific Air"),
  ("3058", "IndiGo"),
  ("3059", "SpiceJet"),
  ("3060", "AirAsia"),
  ("3061", "Jetstar Airways"),
  ("3062", "Scoot"),
  ("3063", "Emirates"),
  ("3064", "Etihad Airways"),
  ("3065", "Qatar Airways"),
  ("3066", "Saudi Arabian Airlines"),
  ("3067", "Royal Jordanian"),
  ("3068", "EgyptAir"),
  ("3069", "South African Airways"),
  ("3070", "Kenya Airways"),
  ("3071", "Ethiopian Airlines"),
  ("3072", "Royal Air Maroc"),
  ("3073", "Air Algerie"),
  ("3074", "Tunisair"),
  ("3075", "Libya Airlines"),
  ("3076", "Nigeria Airways"),
  ("3077", "Ghana Airways"),
  ("3078", "Air Ivoire"),
  ("3079", "TAAG Angola Airlines"),
  ("3080", "Air Zimbabwe"),
  ("3081", "Air Mauritius"),
  ("3082", "Air Seychelles"),
  ("3083", "Air Madagascar"),
  ("3084", "Comair"),
  ("3085", "Kulula"),
  ("3086", "Mango Airlines"),
  ("3087", "FlySafair"),
  ("3088", "Air Botswana"),
  ("3089", "Air Namibia"),
  ("3090", "Precision Air"),
  ("3091", "RwandAir"),
  ("3092", "Uganda Airlines"),
  ("3093", "Fly540"),
  ("3094", "Jambojet"),
  ("3095", "FastJet"),
  ("3096", "Cabo Verde Airlines"),
  ("3097", "TACV"),
  ("3098", "Air Burkina"),
  ("3099", "Air Mali"),
  ("3100", "Corsair International"),
  ("3101", "Air Austral"),
  ("3102", "Air Caledonie International"),
  ("3103", "Aircalin"),
  ("3104", "Air Moana"),
  ("3105", "Air Tahiti Nui"),
  ("3106", "French Bee"),
  ("3107", "Aigle Azur"),
  ("3108", "XL Airways France"),
  ("3109", "Transavia France"),
  ("3110", "easyJet"),
  ("3111", "Ryanair"),
  ("3112", "Wizz Air"),
  ("3113", "Norwegian Air"),
  ("3114", "Pegasus Airlines"),
  ("3115", "Sun Express"),
  ("3116", "Onur Air"),
  ("3117", "AtlasGlobal"),
  ("3118", "Corendon Airlines"),
  ("3119", "Flynas"),
  ("3120", "flydubai"),
  ("3121", "Air Arabia"),
  ("3122", "Jazeera Airways"),
  ("3123", "Kuwait Airways"),
  ("3124", "Gulf Air"),
  ("3125", "Oman Air"),
  ("3126", "SalamAir"),
  ("3127", "Nas Air"),
  ("3128", "flynas"),
  ("3129", "Middle East Airlines"),
  ("3130", "Iraqi Airways"),
  ("3131", "Iran Air"),
  ("3132", "Mahan Air"),
  ("3133", "Caspian Airlines"),
  ("3134", "Kish Air"),
  ("3135", "Taban Airlines"),
  ("3136", "Qeshm Air"),
  ("3137", "Iran Aseman Airlines"),
  ("3138", "Zagros Airlines"),
  ("3139", "Pouya Air"),
  ("3140", "Varesh Airlines"),
  ("3141", "Sepehran Airlines"),
  ("3142", "Karun Airlines"),
  ("3143", "Safiran Airlines"),
  ("3144", "Kishair"),
  ("3145", "Iran Air Tours"),
  ("3146", "Meraj Airlines"),
  ("3147", "Atrak Air"),
  ("3148", "Aria Air"),
  ("3149", "Blue Airlines"),
  ("3150", "Fars Air Qeshm"),
  ("3151", "Kaspian Airlines"),
  ("3152", "Naft Airlines"),
  ("3153", "Pars Air"),
  ("3154", "Payam Air"),
  ("3155", "Saha Airlines"),
  ("3156", "Sama Airlines"),
  ("3157", "Taftan Airlines"),
  ("3158", "Tehran Air"),
  ("3159", "Trigana Air"),
  ("3160", "Wings Air"),
  ("3161", "Indonesia AirAsia"),
  ("3162", "Lion Air"),
  ("3163", "Sriwijaya Air"),
  ("3164", "Garuda Indonesia"),
  ("3165", "Citilink"),
  ("3166", "Batik Air"),
  ("3167", "NAM Air"),
  ("3168", "Super Air Jet"),
  ("3169", "TransNusa"),
  ("3170", "Kalstar Aviation"),
  ("3171", "Xpress Air"),
  ("3172", "Indonesia Air Transport"),
  ("3173", "Cardig Air"),
  ("3174", "Sky Aviation"),
  ("3175", "Aviastar Mandiri"),
  ("3176", "Tri MG Intra Asia Airlines"),
  ("3177", "Express Air"),
  ("3178", "My Indo Airlines"),
  ("3179", "Mandala Airlines"),
  ("3180", "Adam Air"),
  ("3181", "Bouraq Indonesia Airlines"),
  ("3182", "Jatayu Airlines"),
  ("3183", "Dirgantara Air Service"),
  ("3184", "Republic Express Airlines"),
  ("3185", "Travel Express Aviation Service"),
  ("3186", "Asian One Air"),
  ("3187", "Premiair"),
  ("3188", "Metro Batavia"),
  ("3189", "Travira Air"),
  ("3190", "Denim Air"),
  ("3191", "Riau Airlines"),
  ("3192", "Manunggal Air Service"),
  ("3193", "Indonesia Air Asia X"),
  ("3194", "Wings Abadi Airlines"),
  ("3195", "Airfast Indonesia"),
  ("3196", "Associated Mission Aviation"),
  ("3197", "Pelita Air Service"),
  ("3198", "Jhonlin Air Transport"),
  ("3199", "Alfa Trans Dirgantara"),
  ("3200", "Mimika Air"),
  ("3201", "Susi Air"),
  ("3202", "Eastindo"),
  ("3203", "Nusantara Air Charter"),
  ("3204", "Smart Aviation"),
  ("3205", "Chartis Cargo"),
  ("3206", "Indonesian Air Transport"),
  ("3207", "Transwisata Prima Aviation"),
  ("3208", "Explore Jet"),
  ("3209", "Deraya Air Taxi"),
  ("3210", "Komala Indonesia"),
  ("3211", "Wings Air"),
  ("3212", "Citilink Indonesia"),
  ("3213", "Express Transportasi Antarbenua"),
  ("3214", "Travel Express Aviation Services"),
  ("3215", "Garuda Indonesia"),
  ("3216", "Lion Airlines"),
  ("3217", "Sriwijaya Air"),
  ("3218", "Indonesia AirAsia"),
  ("3219", "Batik Air"),
  ("3220", "NAM Air"),
  ("3221", "Super Air Jet"),
  ("3222", "TransNusa"),
  ("3223", "Kalstar Aviation"),
  ("3224", "Xpress Air"),
  ("3225", "Indonesia Air Transport"),
  ("3226", "Cardig Air"),
  ("3227", "Sky Aviation"),
  ("3228", "Aviastar Mandiri"),
  ("3229", "Tri MG Intra Asia Airlines"),
  ("3230", "Express Air"),
  ("3231", "My Indo Airlines"),
  ("3232", "Mandala Airlines"),
  ("3233", "Adam Air"),
  ("3234", "Bouraq Indonesia Airlines"),
  ("3235", "Jatayu Airlines"),
  ("3236", "Dirgantara Air Service"),
  ("3237", "Republic Express Airlines"),
  ("3238", "Travel Express Aviation Service"),
  ("3239", "Asian One Air"),
  ("3240", "Premiair"),
  ("3241", "Metro Batavia"),
  ("3242", "Travira Air"),
  ("3243", "Denim Air"),
  ("3244", "Riau Airlines"),
  ("3245", "Manunggal Air Service"),
  ("3246", "Indonesia Air Asia X"),
  ("3247", "Wings Abadi Airlines"),
  ("3248", "Airfast Indonesia"),
  ("3249", "Associated Mission Aviation"),
  ("3250", "Pelita Air Service"),
  ("3251", "Jhonlin Air Transport"),
  ("3252", "Alfa Trans Dirgantara"),
  ("3253", "Mimika Air"),
  ("3254", "Susi Air"),
  ("3255", "Eastindo"),
  ("3256", "Nusantara Air Charter"),
  ("3257", "Smart Aviation"),
  ("3258", "Chartis Cargo"),
  ("3259", "Indonesian Air Transport"),
  ("3260", "Transwisata Prima Aviation"),
  ("3261", "Explore Jet"),
  ("3262", "Deraya Air Taxi"),
  ("3263", "Komala Indonesia"),
  ("3264", "Wings Air"),
  ("3265", "Citilink Indonesia"),
  ("3266", "Express Transportasi Antarbenua"),
  ("3267", "Travel Express Aviation Services"),
  ("3268", "Garuda Indonesia"),
  ("3269", "Lion Airlines"),
  ("3270", "Sriwijaya Air"),
  ("3271", "Indonesia AirAsia"),
  ("3272", "Batik Air"),
  ("3273", "NAM Air"),
  ("3274", "Super Air Jet"),
  ("3275", "TransNusa"),
  ("3276", "Kalstar Aviation"),
  ("3277", "Xpress Air"),
  ("3278", "Indonesia Air Transport"),
  ("3279", "Cardig Air"),
  ("3280", "Sky Aviation"),
  ("3281", "Aviastar Mandiri"),
  ("3282", "Tri MG Intra Asia Airlines"),
  ("3283", "Express Air"),
  ("3284", "My Indo Airlines"),
  ("3285", "Mandala Airlines"),
  ("3286", "Adam Air"),
  ("3287", "Bouraq Indonesia Airlines"),
  ("3288", "Jatayu Airlines"),
  ("3289", "Dirgantara Air Service"),
  ("3290", "Republic Express Airlines"),
  ("3291", "Travel Express Aviation Service"),
  ("3292", "Asian One Air"),
  ("3293", "Premiair"),
  ("3294", "Metro Batavia"),
  ("3295", "Travira Air"),
  ("3296", "Denim Air"),
  ("3297", "Riau Airlines"),
  ("3298", "Manunggal Air Service"),
  ("3299", "Indonesia Air Asia X"),
  ("3351", "Alamo Rent A Car"),
  ("3352", "Avis"),
  ("3353", "Budget Rent-A-Car"),
  ("3354", "Discount Car Rental"),
  ("3355", "Hertz"),
  ("3356", "National Car Rental"),
  ("3357", "Payless Car Rental"),
  ("3359", "Enterprise Rent-A-Car"),
  ("3360", "Dollar Rent A Car"),
  ("3361", "Europcar"),
  ("3362", "Sixt Rent A Car"),
  ("3363", "Thrifty Car Rental"),
  ("3364", "Zipcar"),
  ("3365", "Turo"),
  ("3366", "RelayRides"),
  ("3367", "Car2Go"),
  ("3368", "DriveNow"),
  ("3369", "Maven"),
  ("3370", "ReachNow"),
  ("3371", "Book by Cadillac"),
  ("3372", "Fair"),
  ("3373", "Getaround"),
  ("3374", "HyreCar"),
  ("3375", "Spinlister"),
  ("3376", "JustShareIt"),
  ("3377", "Outdoorsy"),
  ("3378", "RVshare"),
  ("3379", "Cruise America"),
  ("3380", "El Monte RV"),
  ("3381", "Road Bear RV"),
  ("3382", "Apollo RV"),
  ("3383", "Mighty Campers"),
  ("3384", "Jucy Rentals"),
  ("3385", "Escape Campervans"),
  ("3386", "Lost Campers"),
  ("3387", "Wicked Campers"),
  ("3388", "Britz"),
  ("3389", "Maui"),
  ("3390", "Cheapa Campa"),
  ("3391", "Hippie Camper"),
  ("3392", "Spaceships Rentals"),
  ("3393", "Travellers Autobarn"),
  ("3394", "Backpacker Campervans"),
  ("3395", "Lucky Rentals"),
  ("3396", "East Coast Car Rentals"),
  ("3397", "Redspot Car Rentals"),
  ("3398", "Alpha Car Hire"),
  ("3399", "Ace Rental Cars"),
  ("3501", "Holiday Inns, Holiday Inn Express"),
  ("3502", "Best Western"),
  ("3503", "Sheraton"),
  ("3504", "Hilton"),
  ("3505", "Forte Hotels"),
  ("3506", "Golden Tulip Hotels"),
  ("3507", "Friendship Inns"),
  ("3508", "Quality Inns, Hotels, and Suites"),
  ("3509", "Marriott"),
  ("3510", "Days Inn"),
  ("3511", "Arabella Hotels"),
  ("3512", "Inter-Continental Hotels"),
  ("3513", "Westin Hotels"),
  ("3514", "Amerisuites"),
  ("3515", "Rodeway Inn"),
  ("3516", "La Quinta Motor Inns"),
  ("3517", "Americana Hotels"),
  ("3518", "Sol Hotels"),
  ("3519", "Pullman International Hotels"),
  ("3520", "Meridien Hotels"),
  ("3521", "Cham pace Hotels"),
  ("3522", "Granding Hotels International"),
  ("3523", "Penta Hotels"),
  ("3524", "Hungar Hotels"),
  ("3525", "Husa Hotels"),
  ("3526", "Accor Hotels"),
  ("3527", "Balladins Hotels"),
  ("3528", "Red Roof Inns"),
  ("3529", "Imperial London Hotels"),
  ("3530", "Embassy Suites"),
  ("3531", "Penta Hotels"),
  ("3532", "Dorint Hotels"),
  ("3533", "Arcade Hotels"),
  ("3534", "Loews Hotels"),
  ("3535", "Forum Hotels"),
  ("3536", "Hospitality International"),
  ("3537", "Shangri-La International"),
  ("3538", "Thistle Hotels"),
  ("3539", "Summit International"),
  ("3540", "Hyatt Hotels and Resorts"),
  ("3541", "Sofitel Hotels"),
  ("3542", "Novotel Hotels"),
  ("3543", "Steigenberger Hotels"),
  ("3544", "Econo Lodge"),
  ("3545", "Choice Hotels"),
  ("3546", "Clarion Hotels"),
  ("3547", "Comfort Inn"),
  ("3548", "Quality International"),
  ("3549", "Hotel Ibis"),
  ("3550", "Summit Hotels"),
  ("3551", "Homewood Suites"),
  ("3552", "Embassy Suites Hotels"),
  ("3553", "Hampton Inn"),
  ("3554", "Courtyard by Marriott"),
  ("3555", "Compri Hotels"),
  ("3556", "Stouffer Hotels"),
  ("3557", "Hilton International"),
  ("3558", "Concorde Hotels"),
  ("3559", "Hotel Mercure"),
  ("3560", "Pannonia Hotels"),
  ("3561", "Hungar Hotels"),
  ("3562", "IBUSZ Hotels"),
  ("3563", "Reso Hotels"),
  ("3564", "Hotel Volksturm"),
  ("3565", "Hotel Kempinski"),
  ("3566", "Hotel Okura"),
  ("3567", "Royal Hotels"),
  ("3568", "Four Seasons Hotels"),
  ("3569", "Oberoi Hotels"),
  ("3570", "Hotel Taipei"),
  ("3571", "Relais Hotels"),
  ("3572", "Hotel Breakers"),
  ("3573", "Hotel Admiral"),
  ("3574", "Best Eastern Hotels"),
  ("3575", "Great Eastern Hotels"),
  ("3576", "Tree Tops Hotels"),
  ("3577", "Sandman Inns"),
  ("3578", "venture Inns"),
  ("3579", "Baymont Inns"),
  ("3580", "Midway Motor Lodge"),
  ("3581", "Red Carpet Inn"),
  ("3582", "Imperial 400 Motor Inn"),
  ("3583", "Canadian Pacific Hotels"),
  ("3584", "Welcomed Group Hotels"),
  ("3585", "Hotel Taj"),
  ("3586", "Auberge des Gouverneurs"),
  ("3587", "Hotel Gouverneur"),
  ("3588", "Delta Hotels"),
  ("3589", "Paradise stream Resort"),
  ("3590", "Hotel la Sapinette"),
  ("3591", "Hotel Quebec"),
  ("3592", "Hotel Asia"),
  ("3593", "Hotel Polo"),
  ("3594", "Hotel Indreni"),
  ("3595", "Mount Everest Hotel"),
  ("3596", "Hotel Narayani"),
  ("3597", "Hotel Taragaon"),
  ("3598", "Hotel Malla"),
  ("3599", "Hotel Himalaya"),
  ("4011", "Railroads"),
  ("4111", "Local/Suburban Commuter Passenger Transportation"),
  ("4112", "Passenger Railway"),
  ("4119", "Ambulance Services"),
  ("4121", "Taxicabs and Limousines"),
  ("4131", "Bus Lines"),
  ("4214", "Motor Freight Carriers and Trucking - Local and Long Distance"),
  ("4215", "Courier Services - Air and Ground"),
  ("4225", "Public Warehousing and Storage - Farm Products, Refrigerated Goods and Household Goods"),
  ("4411", "Steamship and Cruise Lines"),
  ("4457", "Boat Rentals and Leases"),
  ("4468", "Marinas, Service and Supplies"),
  ("4511", "Airlines and Air Carriers - Not Elsewhere Classified"),
  ("4582", "Airports, Flying Fields and Airport Terminals"),
  ("4722", "Travel Agencies and Tour Operators"),
  ("4723", "TUI Travel - Germany"),
  ("4724", "Thomas Cook Travel - Germany"),
  ("4725", "American Express Travel Service"),
  ("4726", "Carlson Wagonlit Travel"),
  ("4727", "Rosenbluth International"),
  ("4728", "Welcome Group - India"),
  ("4729", "Staff Tours - Hong Kong"),
  ("4730", "Trafalgar Tours"),
  ("4731", "Gray Line Bus Tours"),
  ("4732", "Creative Tours"),
  ("4733", "Cosmos/Globus Gateway"),
  ("4734", "Tourico Holidays"),
  ("4735", "Japan Creative Tours"),
  ("4736", "Brendan Tours"),
  ("4737", "Collette Tours"),
  ("4738", "DER Travel Service"),
  ("4739", "Yankee Holidays"),
  ("4740", "Grand Circle Travel"),
  ("4741", "Maupintour"),
  ("4742", "CIE Tours International"),
  ("4743", "Korean Air Holidays"),
  ("4744", "Siesta Tours"),
  ("4745", "Virgin Holidays"),
  ("4746", "British Airways Holidays"),
  ("4747", "American Airlines Vacations"),
  ("4748", "Continental Airlines Vacations"),
  ("4749", "Delta Vacations"),
  ("4750", "United Airlines Vacations"),
  ("4751", "Funway Holidays"),
  ("4752", "Liberty Travel"),
  ("4753", "Pleasant Holidays"),
  ("4754", "Club Med Sales"),
  ("4755", "GOGO Tours"),
  ("4756", "Globus Gateway"),
  ("4757", "Cosmos Tours"),
  ("4758", "Insight Vacations"),
  ("4759", "Trafalgar Tours"),
  ("4760", "Contiki Holidays"),
  ("4761", "Top Deck Tours"),
  ("4762", "Busabout"),
  ("4763", "Stray Travel"),
  ("4764", "Kiwi Experience"),
  ("4765", "Flying Kiwi"),
  ("4766", "Wayward Bus"),
  ("4767", "Haggis Adventures"),
  ("4768", "MacBackpackers"),
  ("4769", "Wild Rover Tours"),
  ("4770", "Shamrocker Adventures"),
  ("4771", "Paddywagon Tours"),
  ("4772", "Irish Day Tours"),
  ("4773", "Rabbie\x27s Trail Burners"),
  ("4774", "Timbuktu Travel"),
  ("4775", "Heart of Scotland Tours"),
  ("4776", "Jacobite Tours"),
  ("4777", "Highland Explorer Tours"),
  ("4778", "Citylink"),
  ("4779", "National Express"),
  ("4780", "Megabus"),
  ("4781", "Coach USA"),
  ("4782", "Peter Pan Bus Lines"),
  ("4783", "Adirondack Trailways"),
  ("4784", "Carolina Trailways"),
  ("4785", "Indian Trails"),
  ("4786", "Jefferson Lines"),
  ("4787", "New Jersey Transit"),
  ("4788", "Lakefront Lines"),
  ("4789", "Vermont Transit"),
  ("4790", "Concord Coach Lines"),
  ("4791", "C&J Trailways"),
  ("4792", "Bonanza Bus Lines"),
  ("4793", "Plymouth & Brockton"),
  ("4794", "Southeastern Stages"),
  ("4795", "Tornado Bus"),
  ("4796", "El Paso-Los Angeles Limousine Express"),
  ("4797", "Crucero Express"),
  ("4798", "Omnibus Mexicanos"),
  ("4799", "Transportes del Norte"),
  ("4812", "Telecommunication Equipment and Telephone Sales"),
  ("4814", "Telecommunication Services"),
  ("4815", "Monthly Summary Telephone Charges"),
  ("4816", "Computer Network Services"),
  ("4821", "Telegraph Services"),
  ("4829", "Wires, Money Orders - Not Elsewhere Classified"),
  ("4900", "Utilities - Electric, Gas, Water, and Sanitary"),
  ("5013", "Motor Vehicle Supplies and New Parts"),
  ("5021", "Office and Commercial Furniture"),
  ("5039", "Construction Materials - Not Elsewhere Classified"),
  ("5044", "Office, Photographic, Photocopy and Microfilm Equipment"),
  ("5045", "Computers, Computer Peripheral Equipment - Not Elsewhere Classified"),
  ("5046", "Commercial Equipment - Not Elsewhere Classified"),
  ("5047", "Medical, Dental, Ophthalmic and Hospital Equipment and Supplies"),
  ("5051", "Metal Service Centers and Offices"),
  ("5065", "Electrical Parts and Equipment"),
  ("5072", "Hardware, Equipment and Supplies"),
  ("5074", "Plumbing and Heating Equipment and Supplies"),
  ("5085", "Industrial Supplies - Not Elsewhere Classified"),
  ("5094", "Precious Stones and Metals, Watches and Jewelry"),
  ("5099", "Durable Goods - Not Elsewhere Classified"),
  ("5111", "Stationery, Office Supplies, Printing and Writing Paper"),
  ("5122", "Drugs, Drug Proprietaries and Druggist\x27s Sundries"),
  ("5131", "Piece Goods, Notions and Other Dry Goods"),
  ("5137", "Uniforms, Commercial Clothing"),
  ("5139", "Commercial Footwear"),
  ("5169", "Chemicals and Allied Products - Not Elsewhere Classified"),
  ("5172", "Petroleum and Petroleum Products"),
  ("5192", "Books, Periodicals and Newspapers"),
  ("5193", "Florists\x27 Supplies, Nursery Stock and Flowers"),
  ("5198", "Paints, Varnishes and Supplies"),
  ("5199", "Non-durable Goods - Not Elsewhere Classified"),
  ("5200", "Home Supply Warehouse Stores"),
  ("5211", "Lumber and Building Materials Stores"),
  ("5231", "Paint, Glass and Wallpaper Stores"),
  ("5251", "Hardware Stores"),
  ("5261", "Nurseries, Lawn and Garden Supply Stores"),
  ("5271", "Mobile Home Dealers"),
  ("5300", "Wholesale Clubs"),
  ("5309", "Duty Free Stores"),
  ("5310", "Discount Stores"),
  ("5311", "Department Stores"),
  ("5331", "Variety Stores"),
  ("5399", "Miscellaneous General Merchandise"),
  ("5411", "Grocery Stores, Supermarkets"),
  ("5422", "Freezer and Locker Meat Provisioners"),
  ("5441", "Candy, Nut and Confectionery Stores"),
  ("5451", "Dairy Products Stores"),
  ("5462", "Bakeries"),
  ("5499", "Miscellaneous Food Stores - Convenience Stores and Specialty Markets"),
  ("5511", "Car and Truck Dealers (New and Used) Sales, Service, Repairs Parts and Leasing"),
  ("5521", "Car and Truck Dealers (Used Only) Sales, Service, Repairs Parts and Leasing"),
  ("5531", "Auto and Home Supply Stores"),
  ("5532", "Automotive Tire Stores"),
  ("5533", "Automotive Parts and Accessories Stores"),
  ("5541", "Service Stations (with or without ancillary services)"),
  ("5542", "Automated Fuel Dispensers"),
  ("5551", "Boat Dealers"),
  ("5561", "Camper, Recreational and Utility Trailer Dealers"),
  ("5571", "Motorcycle Shops and Dealers"),
  ("5592", "Motor Homes Dealers"),
  ("5598", "Snowmobile Dealers"),
  ("5599", "Miscellaneous Automotive, Aircraft and Farm Equipment Dealers - Not Elsewhere Classified"),
  ("5611", "Men\x27s and Boys\x27 Clothing and Accessory Stores"),
  ("5621", "Women\x27s Ready-to-Wear Stores"),
  ("5631", "Women\x27s Accessory and Specialty Shops"),
  ("5641", "Children\x27s and Infants\x27 Wear Stores"),
  ("5651", "Family Clothing Stores"),
  ("5655", "Sports and Riding Apparel Stores"),
  ("5661", "Shoe Stores"),
  ("5681", "Furriers and Fur Shops"),
  ("5691", "Men\x27s and Women\x27s Clothing Stores"),
  ("5697", "Tailors, Alterations"),
  ("5698", "Wig and Toupee Stores"),
  ("5699", "Miscellaneous Apparel and Accessory Shops"),
  ("5712", "Furniture, Home Furnishings and Equipment Stores and Manufacturers, Except Appliances"),
  ("5713", "Floor Covering Stores"),
  ("5714", "Drapery, Window Covering and Upholstery Stores"),
  ("5718", "Fireplace, Fireplace Screens and Accessories Stores"),
  ("5719", "Miscellaneous Home Furnishing Specialty Stores"),
  ("5722", "Household Appliance Stores"),
  ("5732", "Electronics Stores"),
  ("5733", "Music Stores - Musical Instruments, Pianos and Sheet Music"),
  ("5734", "Computer Software Stores"),
  ("5735", "Record Stores"),
  ("5811", "Caterers"),
  ("5812", "Eating Places and Restaurants"),
  ("5813", "Drinking Places (Alcoholic Beverages) - Bars, Taverns, Nightclubs, Cocktail Lounges and Discotheques"),
  ("5814", "Fast Food Restaurants"),
  ("5912", "Drug Stores and Pharmacies"),
  ("5921", "Package Stores - Beer, Wine and Liquor"),
  ("5931", "Used Merchandise and Secondhand Stores"),
  ("5932", "Antique Shops"),
  ("5933", "Pawn Shops"),
  ("5935", "Wrecking and Salvage Yards"),
  ("5937", "Antique Reproductions"),
  ("5940", "Bicycle Shops"),
  ("5941", "Sporting Goods Stores"),
  ("5942", "Book Stores"),
  ("5943", "Stationery Stores, Office and School Supply Stores"),
  ("5944", "Jewelry Stores, Watches, Clocks and Silverware Stores"),
  ("5945", "Toy and Hobby Shops"),
  ("5946", "Camera and Photographic Supply Stores"),
  ("5947", "Gift, Card, Novelty and Souvenir Shops"),
  ("5948", "Luggage and Leather Goods Stores"),
  ("5949", "Sewing, Needlework, Fabric and Piece Goods Stores"),
  ("5950", "Glassware, Crystal Stores"),
  ("5960", "Direct Marketing - Insurance Services"),
  ("5962", "Direct Marketing - Travel Related Arrangement Services"),
  ("5963", "Door-to-Door Sales"),
  ("5964", "Direct Marketing - Catalog Merchant"),
  ("5965", "Direct Marketing - Combination Catalog and Retail Merchant"),
  ("5966", "Direct Marketing - Outbound Telemarketing Merchant"),
  ("5967", "Direct Marketing - Inbound Telemarketing Merchant"),
  ("5968", "Direct Marketing - Continuity/Subscription Merchants"),
  ("5969", "Direct Marketing - Not Elsewhere Classified"),
  ("5970", "Artist\x27s Supply and Craft Shops"),
  ("5971", "Art Dealers and Galleries"),
  ("5972", "Stamp and Coin Stores"),
  ("5973", "Religious Goods Stores"),
  ("5975", "Hearing Aids Sales and Supplies"),
  ("5976", "Orthopedic Goods - Prosthetic Devices"),
  ("5977", "Cosmetics Stores"),
  ("5978", "Typewriter Stores - Rental, Sales and Service"),
  ("5983", "Fuel Dealers - Non Automotive - Coal, Fuel Oil, Liquefied Petroleum, Wood"),
  ("5992", "Florists"),
  ("5993", "Cigar Stores and Stands"),
  ("5994", "News Dealers and Newsstands"),
  ("5995", "Pet Shops, Pet Food and Supplies"),
  ("5996", "Swimming Pools Sales"),
  ("5997", "Electric Razor Stores"),
  ("5998", "Tent and Awning Shops"),
  ("5999", "Miscellaneous Specialty Retail"),
  ("7011", "Hotels, Motels and Resorts"),
  ("7012", "Timeshares"),
  ("7032", "Sporting and Recreational Camps"),
  ("7033", "Trailer Parks and Campgrounds"),
  ("7210", "Laundry, Cleaning and Garment Services"),
  ("7211", "Laundries"),
  ("7216", "Dry Cleaners"),
  ("7217", "Carpet and Upholstery Cleaning"),
  ("7221", "Photographic Studios"),
  ("7230", "Barber and Beauty Shops"),
  ("7251", "Shoe Repair/Shoe Shine"),
  ("7261", "Funeral Service and Crematories"),
  ("7273", "Dating/Escort Services"),
  ("7276", "Tax Preparation Services"),
  ("7277", "Debt Counseling Services"),
  ("7278", "Buying/Shopping Services"),
  ("7296", "Clothing Rental"),
  ("7297", "Massage Parlors"),
  ("7298", "Health and Beauty Spas"),
  ("7299", "Miscellaneous Personal Services - Not Elsewhere Classified"),
  ("7311", "Advertising Services"),
  ("7321", "Consumer Credit Reporting Agencies"),
  ("7322", "Debt Collection Agencies"),
  ("7333", "Commercial Photography, Art and Graphics"),
  ("7338", "Quick Copy, Repro and Blueprint"),
  ("7339", "Stenographic and Secretarial Support Services"),
  ("7342", "Exterminating Services"),
  ("7349", "Cleaning and Maintenance"),
  ("7361", "Employment/Temp Agencies"),
  ("7372", "Computer Programming"),
  ("7375", "Information Retrieval Services"),
  ("7379", "Computer Maintenance and Repair Services - Not Elsewhere Classified"),
  ("7392", "Consulting, Public Relations and Management Services"),
  ("7393", "Detective Agencies"),
  ("7394", "Equipment Rental"),
  ("7395", "Photo Developing"),
  ("7399", "Business Services - Not Elsewhere Classified"),
  ("8011", "Doctors"),
  ("8021", "Dentists and Orthodontists"),
  ("8031", "Osteopaths"),
  ("8041", "Chiropractors"),
  ("8042", "Optometrists, Ophthalmologist"),
  ("8043", "Opticians, Eyeglasses and Contact Lenses"),
  ("8049", "Podiatrists, Chiropodists"),
  ("8050", "Nursing/Personal Care"),
  ("8062", "Hospitals"),
  ("8071", "Medical and Dental Labs"),
  ("8099", "Medical Services"),
  ("8111", "Legal Services and Attorneys"),
  ("8211", "Elementary, Secondary Schools"),
  ("8220", "Colleges, Universities"),
  ("8241", "Correspondence Schools"),
  ("8244", "Business and Secretarial Schools"),
  ("8249", "Vocational/Trade Schools"),
  ("8299", "Educational Services - Not Elsewhere Classified"),
  ("8351", "Child Care Services"),
  ("8398", "Charitable and Social Service Organizations - Fundraising"),
  ("8641", "Civic, Social, Fraternal Associations"),
  ("8651", "Political Organizations"),
  ("8661", "Religious Organizations"),
  ("8675", "Automobile Associations"),
  ("8699", "Membership Organizations - Not Elsewhere Classified"),
  ("9211", "Court Costs, Including Alimony and Child Support - Courts of Law"),
  ("9222", "Fines - Government Administrative Entities"),
  ("9311", "Tax Assessments - Government Administrative Entities"),
  ("9399", "Government Services - Not Elsewhere Classified"),
  ("9401", "Intra-Government Purchases - Government Only"),
  ("9402", "Postal Services - Government Only"),
  ("9405", "U.S. Federal Government Agencies or Departments")]

/-- The field-name lookup performed inline in `parse`:
`KLVParser.definitions[key] || 'Unknown'`. -/
def lookupName (key : String) : String :=
  match definitions.lookup key with
  | some n => if n = "" then "Unknown" else n
  | none => "Unknown"

/-- `KLVParser.formatCurrency`: decoration for the Original Currency Code
field (key `"049"`).  Returns `none` for any other key; otherwise the
`formattedValue` string paired with the optional `currencyInfo`. -/
def formatCurrency (value : String) (key : String) :
    Option (String × Option CurrencyInfo) :=
  if key ≠ "049" then none
  else
    let paddedValue := padStart value 3 '0'
    match currencyMapping.lookup paddedValue with
    | some currency =>
        some (currency.flag ++ " " ++ currency.code ++ " - " ++ currency.name,
              some ⟨currency.name, currency.code, currency.flag⟩)
    | none =>
        some (value ++ " (Unknown Currency Code)", none)

/-- `KLVParser.formatMCC`: decoration for the Merchant Category Code field
(key `"026"`). -/
def formatMCC (value : String) (key : String) :
    Option (String × Option MCCInfo) :=
  if key ≠ "026" then none
  else
    let paddedValue := padStart value 4 '0'
    match mccMapping.lookup paddedValue with
    | some mcc =>
        some (paddedValue ++ " - " ++ mcc, some ⟨paddedValue, mcc⟩)
    | none =>
        some (paddedValue ++ " (Unknown MCC)", none)

/-- The decorator application of `parse` steps g: the currency decorator is
applied first, then the MCC decorator, each non-null result overwriting
`formattedValue` and setting its own detail field. -/
def decorate (entry : KLVEntry) : KLVEntry :=
  let entry1 :=
    match formatCurrency entry.value entry.key with
    | some r => { entry with formattedValue := some r.1, currencyInfo := r.2 }
    | none => entry
  match formatMCC entry1.value entry1.key with
  | some r => { entry1 with formattedValue := some r.1, mccInfo := r.2 }
  | none => entry1

/-- Error message for step a of the scanner loop. -/
def incompleteEntryMsg (p : Nat) : String :=
  "Incomplete entry at position " ++ Nat.repr p

/-- Error message for step c of the scanner loop. -/
def invalidFormatMsg (p : Nat) : String :=
  "Invalid format at position " ++ Nat.repr p

/-- Error message for step e of the scanner loop. -/
def incompleteValueMsg (p : Nat) : String :=
  "Incomplete value at position " ++ Nat.repr p

/-- The `while (pos < clean.length)` loop of `KLVParser.parse`, by structural
recursion on a fuel argument.  Each iteration advances `pos` by at least 5, so
any fuel exceeding `clean.length - pos` is sufficient (`parse` passes
`clean.length + 1`). -/
def parseLoop (clean : List Char) : Nat → Nat → List KLVEntry × List String
  | 0, _ => ([], [])
  | fuel + 1, pos =>
    if pos < clean.length then
      if pos + 5 > clean.length then
        ([], [incompleteEntryMsg pos])
      else
        let key := (clean.drop pos).take 3
        let lenStr := (clean.drop (pos + 3)).take 2
        if isDigits 3 key && isDigits 2 lenStr then
          let len := digitsToNat lenStr
          if pos + 5 + len > clean.length then
            ([], [incompleteValueMsg (pos + 5)])
          else
            let value := (clean.drop (pos + 5)).take len
            let entry := decorate
              { key := ⟨key⟩, len := len, value := ⟨value⟩, pos := pos,
                name := lookupName ⟨key⟩ }
            let rest := parseLoop clean fuel (pos + 5 + len)
            (entry :: rest.1, rest.2)
        else
          ([], [invalidFormatMsg pos])
    else
      ([], [])

/-- `KLVParser.parse`. -/
def parse (klvString : String) : KLVParseResult :=
  let clean := stripWS klvString
  let r := parseLoop clean (clean.length + 1) 0
  { results := r.1, errors := r.2 }

/-- `KLVParser.validate`. -/
def validate (klvString : String) : KLVValidationResult :=
  let r := parse klvString
  { isValid := r.errors.length == 0,
    entriesCount := r.results.length,
    errors := r.errors,
    totalLength := (stripWS klvString).length }

/-- `KLVParser.build`. -/
def build (entries : List KLVBuildEntry) : String :=
  String.join
    ((entries.filter (fun entry => !(entry.key == "") && !(entry.value == ""))).map
      (fun entry =>
        padStart entry.key 3 '0' ++
        padStart (Nat.repr entry.value.length) 2 '0' ++
        entry.value))

/-- The `'csv'` branch of `KLVParser.export`: fixed header line, then one
double-quoted comma-separated row per entry, rows joined by newlines. -/
def exportCSV (results : List KLVEntry) : String :=
  "Key,Name,Length,Value,Position\n" ++
  String.intercalate "\n"
    (results.map (fun r =>
      "\"" ++ r.key ++ "\",\"" ++ r.name ++ "\",\"" ++ Nat.repr r.len ++
      "\",\"" ++ r.value ++ "\",\"" ++ Nat.repr r.pos ++ "\""))

/-- `Chained p l`: the entries of `l` occupy consecutive regions starting at
offset `p`, each following entry starting `5 + len` after the previous one —
the offset law of §3 of the specification. -/
def Chained : Nat → List KLVEntry → Prop
  | _, [] => True
  | p, e :: es => e.pos = p ∧ Chained (p + 5 + e.len) es

instance decChained : (p : Nat) → (l : List KLVEntry) → Decidable (Chained p l)
  | _, [] => isTrue trivial
  | p, e :: es =>
    @instDecidableAnd _ _ (Nat.decEq e.pos p) (decChained (p + 5 + e.len) es)

/-- The characters that one parsed entry re-serializes to: its key, its
canonically rendered two-digit length, and its value. -/
def chunkOf (e : KLVEntry) : List Char :=
  e.key.toList ++ (padStart (Nat.repr e.len) 2 '0').toList ++ e.value.toList

/-- The characters `build` emits for one (kept) entry. -/
def buildChunk (e : KLVBuildEntry) : List Char :=
  (padStart e.key 3 '0').toList ++
  (padStart (Nat.repr e.value.length) 2 '0').toList ++ e.value.toList

/-- A build entry within the round-trippable domain: non-empty all-digit key
of at most 3 characters, non-empty whitespace-free value of fewer than 100
characters. -/
def GoodEntry (e : KLVBuildEntry) : Prop :=
  e.key ≠ "" ∧ e.key.length ≤ 3 ∧ e.key.toList.all isASCIIDigit = true ∧
  e.value ≠ "" ∧ e.value.length < 100 ∧
  e.value.toList.all (fun c => !(isJSWhitespace c)) = true

instance : DecidablePred GoodEntry := fun e => by
  unfold GoodEntry; infer_instance

/-- The Builder algorithm as worded in §4.5 of the specification: walk the
entries in order, drop any with an empty key or value, and emit
`paddedKey ++ paddedLen ++ value` for the rest. -/
def buildSpec : List KLVBuildEntry → String
  | [] => ""
  | e :: es =>
    (if e.key = "" ∨ e.value = "" then "" else
      padStart e.key 3 '0' ++ padStart (Nat.repr e.value.length) 2 '0' ++ e.value)
    ++ buildSpec es

/-- One CSV row as worded in the specification: the fields key, name,
length, value, offset, each double-quoted, joined by commas. -/
def csvRowSpec (r : KLVEntry) : String :=
  "\"" ++ r.key ++ "\"" ++ "," ++ "\"" ++ r.name ++ "\"" ++ "," ++
  "\"" ++ Nat.repr r.len ++ "\"" ++ "," ++ "\"" ++ r.value ++ "\"" ++ "," ++
  "\"" ++ Nat.repr r.pos ++ "\""

/-! ## Basic facts about characters, padding and digit rendering -/

theorem digit_not_ws {c : Char} (h : isASCIIDigit c = true) :
    isJSWhitespace c = false := by
  simp only [isASCIIDigit, Bool.and_eq_true, decide_eq_true_eq] at h
  simp only [isJSWhitespace, Bool.or_eq_false_iff, Bool.and_eq_false_iff,
    beq_eq_false_iff_ne, ne_eq, decide_eq_false_iff_not, not_le]
  omega

theorem padStart_toList (s : String) (n : Nat) (c : Char) :
    (padStart s n c).toList = List.replicate (n - s.length) c ++ s.toList := rfl

theorem padStart_of_le {s : String} {n : Nat} (c : Char) (h : n ≤ s.length) :
    padStart s n c = s := by
  apply String.ext
  show List.replicate (n - s.length) c ++ s.data = s.data
  rw [Nat.sub_eq_zero_of_le h]
  rfl

theorem padStart_length {s : String} {n : Nat} (c : Char) (h : s.length ≤ n) :
    (padStart s n c).length = n := by
  show (List.replicate (n - s.length) c ++ s.data).length = n
  rw [List.length_append, List.length_replicate]
  have : s.data.length = s.length := rfl
  omega

theorem padStart_digits {s : String} {n : Nat}
    (h : s.toList.all isASCIIDigit = true) :
    (padStart s n '0').toList.all isASCIIDigit = true := by
  rw [padStart_toList, List.all_append, Bool.and_eq_true]
  refine ⟨?_, h⟩
  rw [List.all_eq_true]
  intro c hc
  rw [List.eq_of_mem_replicate hc]
  decide

theorem digitsToNat_le_99 {l : List Char} (h2 : l.length = 2)
    (hd : l.all isASCIIDigit = true) : digitsToNat l ≤ 99 := by
  obtain ⟨a, b, rfl⟩ := List.length_eq_two.mp h2
  simp only [List.all_cons, List.all_nil, Bool.and_eq_true, isASCIIDigit,
    decide_eq_true_eq] at hd
  show 10 * (0 * 10 + (a.toNat - 48))  + (b.toNat - 48) ≤ 99
  omega

theorem lenRender : ∀ n, n < 100 →
    (padStart (Nat.repr n) 2 '0').toList.length = 2 ∧
    (padStart (Nat.repr n) 2 '0').toList.all isASCIIDigit = true ∧
    digitsToNat (padStart (Nat.repr n) 2 '0').toList = n := by decide

theorem repr_two_digits : ∀ d0, d0 < 10 → ∀ d1, d1 < 10 →
    (padStart (Nat.repr (10 * d0 + d1)) 2 '0').toList =
      [Nat.digitChar d0, Nat.digitChar d1] := by decide

theorem digitChar_ofNat : ∀ m, m < 58 → 48 ≤ m →
    Nat.digitChar (m - 48) = Char.ofNat m := by decide

theorem digitChar_toNat {c : Char} (h : isASCIIDigit c = true) :
    Nat.digitChar (c.toNat - 48) = c := by
  simp only [isASCIIDigit, Bool.and_eq_true, decide_eq_true_eq] at h
  conv_rhs => rw [← Char.ofNat_toNat c]
  exact digitChar_ofNat c.toNat (by omega) (by omega)

theorem lenStr_render {c0 c1 : Char} (h0 : isASCIIDigit c0 = true)
    (h1 : isASCIIDigit c1 = true) :
    padStart (Nat.repr (digitsToNat [c0, c1])) 2 '0' = ⟨[c0, c1]⟩ := by
  have e0 : digitsToNat [c0, c1] = 10 * (c0.toNat - 48) + (c1.toNat - 48) := by
    show 10 * (0 * 10 + (c0.toNat - 48)) + (c1.toNat - 48) = _
    ring
  have hd0 : c0.toNat - 48 < 10 := by
    simp only [isASCIIDigit, Bool.and_eq_true, decide_eq_true_eq] at h0; omega
  have hd1 : c1.toNat - 48 < 10 := by
    simp only [isASCIIDigit, Bool.and_eq_true, decide_eq_true_eq] at h1; omega
  apply String.ext
  show (padStart (Nat.repr (digitsToNat [c0, c1])) 2 '0').toList = [c0, c1]
  rw [e0, repr_two_digits _ hd0 _ hd1, digitChar_toNat h0, digitChar_toNat h1]

/-! ## The decorators leave the structural fields of an entry unchanged -/

theorem decorate_fields (e : KLVEntry) :
    (decorate e).key = e.key ∧ (decorate e).len = e.len ∧
    (decorate e).value = e.value ∧ (decorate e).pos = e.pos ∧
    (decorate e).name = e.name := by
  unfold decorate
  cases formatCurrency e.value e.key <;> dsimp only <;>
    cases formatMCC e.value e.key <;> simp

/-! ## String joining -/

theorem foldl_append_eq (l : List String) :
    ∀ a : String, l.foldl (fun r s => r ++ s) a = a ++ String.join l := by
  induction l with
  | nil => intro a; simp [String.join, String.append_empty]
  | cons s tl ih =>
    intro a
    show List.foldl _ (a ++ s) tl = _
    rw [ih (a ++ s), String.append_assoc]
    congr 1
    show _ = List.foldl _ ("" ++ s) tl
    rw [ih ("" ++ s), String.empty_append]

theorem join_cons (s : String) (l : List String) :
    String.join (s :: l) = s ++ String.join l := by
  show List.foldl _ ("" ++ s) l = _
  rw [foldl_append_eq l ("" ++ s), String.empty_append]

theorem join_data (l : List String) :
    (String.join l).data = (l.map String.data).flatten := by
  induction l with
  | nil => rfl
  | cons s tl ih => rw [join_cons, String.data_append, ih]; rfl

/-! ## The scanner loop: basic shape lemmas -/

theorem parseLoop_done {clean : List Char} {pos : Nat} (h : clean.length ≤ pos) :
    ∀ fuel, parseLoop clean fuel pos = ([], []) := by
  intro fuel
  cases fuel with
  | zero => rfl
  | succ f => rw [parseLoop, if_neg (by omega)]

/-! ## Chains of consecutive entries -/

theorem chained_consecutive (l : List KLVEntry) :
    ∀ (p i : Nat) (h : i + 1 < l.length), Chained p l →
      (l.get ⟨i + 1, h⟩).pos =
        (l.get ⟨i, Nat.lt_of_succ_lt h⟩).pos + 5 +
        (l.get ⟨i, Nat.lt_of_succ_lt h⟩).len := by
  induction l with
  | nil => intro p i h; simp at h
  | cons e es ih =>
    intro p i h hc
    cases i with
    | zero =>
      cases es with
      | nil => simp at h
      | cons e2 es2 =>
        obtain ⟨hp, hp2, _⟩ := hc
        show e2.pos = e.pos + 5 + e.len
        rw [hp, hp2]
    | succ j =>
      exact ih (p + 5 + e.len) j (by simpa using h) hc.2

/-! ## Master invariants of the scanner loop -/

theorem parseLoop_fields (clean : List Char) :
    ∀ (fuel pos : Nat), ∀ e ∈ (parseLoop clean fuel pos).1,
      e.key.toList.length = 3 ∧ e.key.toList.all isASCIIDigit = true ∧
      e.value.length = e.len ∧ e.len ≤ 99 ∧ e.name = lookupName e.key ∧
      pos ≤ e.pos ∧ e.pos + 5 + e.len ≤ clean.length := by
  intro fuel
  induction fuel with
  | zero => intro pos e he; exact absurd he (by simp [parseLoop])
  | succ f ih =>
    intro pos e he
    simp only [parseLoop] at he
    by_cases h1 : pos < clean.length
    · rw [if_pos h1] at he
      by_cases h2 : pos + 5 > clean.length
      · rw [if_pos h2] at he; simp at he
      · rw [if_neg h2] at he
        by_cases h3 : (isDigits 3 ((clean.drop pos).take 3) &&
            isDigits 2 ((clean.drop (pos + 3)).take 2)) = true
        · rw [if_pos h3] at he
          by_cases h4 : pos + 5 + digitsToNat ((clean.drop (pos + 3)).take 2) >
              clean.length
          · rw [if_pos h4] at he; simp at he
          · rw [if_neg h4] at he
            simp only [List.mem_cons] at he
            have hkeylen : ((clean.drop pos).take 3).length = 3 := by
              rw [List.length_take, List.length_drop]; omega
            have hlenlen : ((clean.drop (pos + 3)).take 2).length = 2 := by
              rw [List.length_take, List.length_drop]; omega
            simp only [isDigits, Bool.and_eq_true, beq_iff_eq] at h3
            obtain ⟨⟨-, hkdig⟩, -, hldig⟩ := h3
            rcases he with rfl | he
            · obtain ⟨hk, hl, hv, hp, hn⟩ := decorate_fields
                { key := ⟨(clean.drop pos).take 3⟩,
                  len := digitsToNat ((clean.drop (pos + 3)).take 2),
                  value := ⟨(clean.drop (pos + 5)).take
                    (digitsToNat ((clean.drop (pos + 3)).take 2))⟩,
                  pos := pos,
                  name := lookupName ⟨(clean.drop pos).take 3⟩ }
              rw [hk, hl, hv, hp, hn]
              dsimp only
              refine ⟨hkeylen, hkdig, ?_, ?_, rfl, le_refl pos, by omega⟩
              · show ((clean.drop (pos + 5)).take
                  (digitsToNat ((clean.drop (pos + 3)).take 2))).length = _
                rw [List.length_take, List.length_drop]; omega
              · exact digitsToNat_le_99 hlenlen hldig
            · obtain ⟨q1, q2, q3, q4, q5, q6, q7⟩ := ih _ e he
              exact ⟨q1, q2, q3, q4, q5, by omega, q7⟩
        · rw [if_neg h3] at he; simp at he
    · rw [if_neg h1] at he; simp at he

theorem parseLoop_chained (clean : List Char) :
    ∀ fuel pos, Chained pos (parseLoop clean fuel pos).1 := by
  intro fuel
  induction fuel with
  | zero => intro pos; exact trivial
  | succ f ih =>
    intro pos
    simp only [parseLoop]
    by_cases h1 : pos < clean.length
    · rw [if_pos h1]
      by_cases h2 : pos + 5 > clean.length
      · rw [if_pos h2]; exact trivial
      · rw [if_neg h2]
        by_cases h3 : (isDigits 3 ((clean.drop pos).take 3) &&
            isDigits 2 ((clean.drop (pos + 3)).take 2)) = true
        · rw [if_pos h3]
          by_cases h4 : pos + 5 + digitsToNat ((clean.drop (pos + 3)).take 2) >
              clean.length
          · rw [if_pos h4]; exact trivial
          · rw [if_neg h4]
            obtain ⟨hk, hl, hv, hp, hn⟩ := decorate_fields
              { key := ⟨(clean.drop pos).take 3⟩,
                len := digitsToNat ((clean.drop (pos + 3)).take 2),
                value := ⟨(clean.drop (pos + 5)).take
                  (digitsToNat ((clean.drop (pos + 3)).take 2))⟩,
                pos := pos,
                name := lookupName ⟨(clean.drop pos).take 3⟩ }
            exact ⟨hp, by rw [hl]; exact ih _⟩
        · rw [if_neg h3]; exact trivial
    · rw [if_neg h1]; exact trivial

theorem parseLoop_errors (clean : List Char) :
    ∀ fuel pos, (parseLoop clean fuel pos).2 = [] ∨
      ∃ p, ((parseLoop clean fuel pos).2 = [incompleteEntryMsg p] ∨
            (parseLoop clean fuel pos).2 = [invalidFormatMsg p] ∨
            (parseLoop clean fuel pos).2 = [incompleteValueMsg p]) ∧
        pos ≤ p ∧
        ∀ e ∈ (parseLoop clean fuel pos).1, e.pos + 5 + e.len ≤ p := by
  intro fuel
  induction fuel with
  | zero => intro pos; left; rfl
  | succ f ih =>
    intro pos
    simp only [parseLoop]
    by_cases h1 : pos < clean.length
    · rw [if_pos h1]
      by_cases h2 : pos + 5 > clean.length
      · rw [if_pos h2]
        exact Or.inr ⟨pos, Or.inl rfl, le_refl pos, by simp⟩
      · rw [if_neg h2]
        by_cases h3 : (isDigits 3 ((clean.drop pos).take 3) &&
            isDigits 2 ((clean.drop (pos + 3)).take 2)) = true
        · rw [if_pos h3]
          by_cases h4 : pos + 5 + digitsToNat ((clean.drop (pos + 3)).take 2) >
              clean.length
          · rw [if_pos h4]
            exact Or.inr ⟨pos + 5, Or.inr (Or.inr rfl), by omega, by simp⟩
          · rw [if_neg h4]
            rcases ih (pos + 5 + digitsToNat ((clean.drop (pos + 3)).take 2)) with
              hnil | ⟨p, hshape, hle, hbound⟩
            · left; exact hnil
            · right
              refine ⟨p, hshape, by omega, ?_⟩
              intro e he
              simp only [List.mem_cons] at he
              rcases he with rfl | he
              · obtain ⟨hk, hl, hv, hp, hn⟩ := decorate_fields
                  { key := ⟨(clean.drop pos).take 3⟩,
                    len := digitsToNat ((clean.drop (pos + 3)).take 2),
                    value := ⟨(clean.drop (pos + 5)).take
                      (digitsToNat ((clean.drop (pos + 3)).take 2))⟩,
                    pos := pos,
                    name := lookupName ⟨(clean.drop pos).take 3⟩ }
                rw [hl, hp]
                dsimp only
                omega
              · exact hbound e he
        · rw [if_neg h3]
          exact Or.inr ⟨pos, Or.inr (Or.inl rfl), le_refl pos, by simp⟩
    · rw [if_neg h1]; left; rfl


theorem chunkOf_decorate (e : KLVEntry) : chunkOf (decorate e) = chunkOf e := by
  obtain ⟨hk, hl, hv, -, -⟩ := decorate_fields e
  simp only [chunkOf, hk, hl, hv]

theorem parseLoop_reconstruct (clean : List Char) :
    ∀ fuel pos, pos ≤ clean.length → clean.length - pos < fuel →
      (parseLoop clean fuel pos).2 = [] →
      ((parseLoop clean fuel pos).1.map chunkOf).flatten = clean.drop pos := by
  intro fuel
  induction fuel with
  | zero => intro pos hpos hfuel herr; omega
  | succ f ih =>
    intro pos hpos hfuel herr
    simp only [parseLoop] at herr ⊢
    by_cases h1 : pos < clean.length
    · rw [if_pos h1] at herr ⊢
      by_cases h2 : pos + 5 > clean.length
      · rw [if_pos h2] at herr; simp at herr
      · rw [if_neg h2] at herr ⊢
        by_cases h3 : (isDigits 3 ((clean.drop pos).take 3) &&
            isDigits 2 ((clean.drop (pos + 3)).take 2)) = true
        · rw [if_pos h3] at herr ⊢
          by_cases h4 : pos + 5 + digitsToNat ((clean.drop (pos + 3)).take 2) >
              clean.length
          · rw [if_pos h4] at herr; simp at herr
          · rw [if_neg h4] at herr ⊢
            simp only [List.map_cons, List.flatten_cons]
            have hlenlen : ((clean.drop (pos + 3)).take 2).length = 2 := by
              rw [List.length_take, List.length_drop]; omega
            simp only [isDigits, Bool.and_eq_true, beq_iff_eq] at h3
            obtain ⟨⟨-, -⟩, -, hldig⟩ := h3
            obtain ⟨c0, c1, hc⟩ := List.length_eq_two.mp hlenlen
            have hd0 : isASCIIDigit c0 = true := by
              have := (List.all_eq_true.mp hldig) c0 (by rw [hc]; simp)
              exact this
            have hd1 : isASCIIDigit c1 = true := by
              have := (List.all_eq_true.mp hldig) c1 (by rw [hc]; simp)
              exact this
            have hchunk : chunkOf (decorate
                { key := ⟨(clean.drop pos).take 3⟩,
                  len := digitsToNat ((clean.drop (pos + 3)).take 2),
                  value := ⟨(clean.drop (pos + 5)).take
                    (digitsToNat ((clean.drop (pos + 3)).take 2))⟩,
                  pos := pos,
                  name := lookupName ⟨(clean.drop pos).take 3⟩ }) =
                (clean.drop pos).take 3 ++ (clean.drop (pos + 3)).take 2 ++
                (clean.drop (pos + 5)).take
                  (digitsToNat ((clean.drop (pos + 3)).take 2)) := by
              rw [chunkOf_decorate]
              simp only [chunkOf]
              congr 1
              congr 1
              rw [hc, lenStr_render hd0 hd1]
              rfl
            rw [hchunk]
            have hrest := ih (pos + 5 + digitsToNat ((clean.drop (pos + 3)).take 2))
              (by omega) (by omega) herr
            rw [hrest]
            have h35 : pos + 3 + 2 = pos + 5 := by omega
            have htake : (clean.drop pos).take 3 ++ (clean.drop (pos + 3)).take 2 ++
                (clean.drop (pos + 5)).take
                  (digitsToNat ((clean.drop (pos + 3)).take 2)) =
                (clean.drop pos).take
                  (5 + digitsToNat ((clean.drop (pos + 3)).take 2)) := by
              have e1 : (5 : Nat) + digitsToNat ((clean.drop (pos + 3)).take 2) =
                  3 + (2 + digitsToNat ((clean.drop (pos + 3)).take 2)) := by omega
              rw [e1, List.take_add, List.take_add, List.drop_drop, List.drop_drop,
                h35, List.append_assoc]
            have hdrop : clean.drop (pos + 5 +
                digitsToNat ((clean.drop (pos + 3)).take 2)) =
                (clean.drop pos).drop
                  (5 + digitsToNat ((clean.drop (pos + 3)).take 2)) := by
              rw [List.drop_drop]
              congr 1
              omega
            rw [hdrop, htake, List.take_append_drop]
        · rw [if_neg h3] at herr; simp at herr
    · rw [if_neg h1] at herr ⊢
      rw [List.drop_eq_nil_of_le (by omega)]
      simp



theorem length_pos_of_ne_empty {s : String} (h : s ≠ "") : 0 < s.length := by
  rcases s with ⟨l⟩
  cases l with
  | nil => exact absurd (by decide) h
  | cons c cs =>
    show 0 < (c :: cs).length
    simp

theorem parseLoop_chunks (clean : List Char) :
    ∀ (es : List KLVBuildEntry), (∀ e ∈ es, GoodEntry e) →
      ∀ (fuel pos : Nat),
      clean.drop pos = (es.map buildChunk).flatten →
      pos ≤ clean.length →
      clean.length - pos < fuel →
      (parseLoop clean fuel pos).2 = [] ∧
      (parseLoop clean fuel pos).1.map (fun e => (e.key, e.value)) =
        es.map (fun e => (padStart e.key 3 '0', e.value)) ∧
      (parseLoop clean fuel pos).1.map KLVEntry.len =
        es.map (fun e => e.value.length) := by
  intro es
  induction es with
  | nil =>
    intro _ fuel pos hdrop hpos hfuel
    have hle : clean.length ≤ pos := by
      have hlen := congrArg List.length hdrop
      rw [List.length_drop] at hlen
      simp at hlen
      omega
    rw [parseLoop_done hle fuel]
    exact ⟨rfl, rfl, rfl⟩
  | cons e tl ih =>
    intro hgood fuel pos hdrop hpos hfuel
    obtain ⟨hk0, hk3, hkdig, hv0, hv100, -⟩ := hgood e (by simp)
    simp only [List.map_cons, List.flatten_cons] at hdrop
    have hpk3 : (padStart e.key 3 '0').toList.length = 3 := padStart_length '0' hk3
    have hpkdig : (padStart e.key 3 '0').toList.all isASCIIDigit = true :=
      padStart_digits hkdig
    obtain ⟨hpl2, hpldig, hpldt⟩ := lenRender e.value.length hv100
    have hvlen : e.value.toList.length = e.value.length := rfl
    have hvpos : 0 < e.value.length := length_pos_of_ne_empty hv0
    have hsplit : clean.drop pos = (padStart e.key 3 '0').toList ++
        ((padStart (Nat.repr e.value.length) 2 '0').toList ++
          (e.value.toList ++ (tl.map buildChunk).flatten)) := by
      rw [hdrop]
      simp [buildChunk, List.append_assoc]
    have hlen : clean.length - pos =
        5 + e.value.length + (tl.map buildChunk).flatten.length := by
      have := congrArg List.length hsplit
      rw [List.length_drop] at this
      simp only [List.length_append, hpk3, hpl2, hvlen] at this
      omega
    have h1 : pos < clean.length := by omega
    have h2 : ¬pos + 5 > clean.length := by omega
    have htake3 : (clean.drop pos).take 3 = (padStart e.key 3 '0').toList := by
      rw [hsplit]; exact List.take_left' hpk3
    have hdrop3 : clean.drop (pos + 3) =
        (padStart (Nat.repr e.value.length) 2 '0').toList ++
          (e.value.toList ++ (tl.map buildChunk).flatten) := by
      have : clean.drop (pos + 3) = (clean.drop pos).drop 3 := by
        rw [List.drop_drop]
      rw [this, hsplit]
      exact List.drop_left' hpk3
    have htake2 : (clean.drop (pos + 3)).take 2 =
        (padStart (Nat.repr e.value.length) 2 '0').toList := by
      rw [hdrop3]; exact List.take_left' hpl2
    have hdrop5 : clean.drop (pos + 5) =
        e.value.toList ++ (tl.map buildChunk).flatten := by
      have h35 : pos + 3 + 2 = pos + 5 := by omega
      have : clean.drop (pos + 5) = (clean.drop (pos + 3)).drop 2 := by
        rw [List.drop_drop, h35]
      rw [this, hdrop3]
      exact List.drop_left' hpl2
    have htakev : (clean.drop (pos + 5)).take e.value.length = e.value.toList := by
      rw [hdrop5]; exact List.take_left' hvlen
    have hdropnext : clean.drop (pos + 5 + e.value.length) =
        (tl.map buildChunk).flatten := by
      have : clean.drop (pos + 5 + e.value.length) =
          (clean.drop (pos + 5)).drop e.value.length := by
        rw [List.drop_drop]
      rw [this, hdrop5]
      exact List.drop_left' hvlen
    cases fuel with
    | zero => omega
    | succ f =>
      simp only [parseLoop]
      rw [if_pos h1, if_neg h2, htake3, htake2, hpldt, htakev]
      rw [if_pos (by
        simp only [isDigits, Bool.and_eq_true, beq_iff_eq]
        exact ⟨⟨hpk3, hpkdig⟩, hpl2, hpldig⟩)]
      rw [if_neg (by omega)]
      obtain ⟨he, hm1, hm2⟩ := ih (fun x hx => hgood x (by simp [hx])) f
        (pos + 5 + e.value.length) hdropnext (by omega) (by omega)
      refine ⟨he, ?_, ?_⟩
      · simp only [List.map_cons, hm1]
        congr 1
        obtain ⟨hk, -, hv, -, -⟩ := decorate_fields
          { key := ⟨(padStart e.key 3 '0').toList⟩,
            len := e.value.length,
            value := ⟨e.value.toList⟩,
            pos := pos,
            name := lookupName ⟨(padStart e.key 3 '0').toList⟩ }
        rw [hk, hv]
        rfl
      · simp only [List.map_cons, hm2]
        congr 1
        obtain ⟨-, hl, -, -, -⟩ := decorate_fields
          { key := ⟨(padStart e.key 3 '0').toList⟩,
            len := e.value.length,
            value := ⟨e.value.toList⟩,
            pos := pos,
            name := lookupName ⟨(padStart e.key 3 '0').toList⟩ }
        rw [hl]

/-! ## Claim theorems -/

/-- C2: for every input string, `parse` halts at the first structural error:
the error list is empty or a single message of one of the three kinds
(incomplete entry, invalid format, incomplete value) carrying a position `p`,
and no emitted entry covers any buffer region at or after `p`. -/
theorem parse_halts_at_first_error (s : String) :
    (parse s).errors = [] ∨
    ∃ p, ((parse s).errors = [incompleteEntryMsg p] ∨
          (parse s).errors = [invalidFormatMsg p] ∨
          (parse s).errors = [incompleteValueMsg p]) ∧
      ∀ e ∈ (parse s).results, e.pos + 5 + e.len ≤ p := by
  rcases parseLoop_errors (stripWS s) ((stripWS s).length + 1) 0 with h | ⟨p, hs, -, hb⟩
  · left; exact h
  · right; exact ⟨p, hs, hb⟩

/-- C3: in every parse result, each entry's value has exactly `len`
characters, and consecutive entries satisfy the offset law
`pos[i+1] = pos[i] + 5 + len[i]`, so offsets are strictly increasing. -/
theorem parse_value_length_and_offsets (s : String) :
    (∀ e ∈ (parse s).results, e.value.length = e.len) ∧
    ∀ (i : Nat) (h : i + 1 < (parse s).results.length),
      ((parse s).results.get ⟨i + 1, h⟩).pos =
        ((parse s).results.get ⟨i, Nat.lt_of_succ_lt h⟩).pos + 5 +
        ((parse s).results.get ⟨i, Nat.lt_of_succ_lt h⟩).len ∧
      ((parse s).results.get ⟨i, Nat.lt_of_succ_lt h⟩).pos <
        ((parse s).results.get ⟨i + 1, h⟩).pos := by
  constructor
  · intro e he
    exact (parseLoop_fields (stripWS s) _ 0 e he).2.2.1
  · intro i h
    have hc := parseLoop_chained (stripWS s) ((stripWS s).length + 1) 0
    have hcons := chained_consecutive (parse s).results 0 i h hc
    exact ⟨hcons, by omega⟩

/-- C4: `validate` is derived entirely from `parse`: validity is emptiness of
the parse errors, the entry count is the number of parsed entries, the error
list is passed through unchanged, and the total length is the length of the
whitespace-stripped input. -/
theorem validate_delegates_to_parse (s : String) :
    (validate s).isValid = (parse s).errors.isEmpty ∧
    (validate s).entriesCount = (parse s).results.length ∧
    (validate s).errors = (parse s).errors ∧
    (validate s).totalLength = (stripWS s).length := by
  refine ⟨?_, rfl, rfl, rfl⟩
  show ((parse s).errors.length == 0) = (parse s).errors.isEmpty
  cases (parse s).errors <;> rfl

/-- Witness for C3 at a concrete two-entry input. -/
theorem parse_value_length_and_offsets_witness :
    ((parse "00201A00301B").results.get ⟨1, by decide⟩).pos =
      ((parse "00201A00301B").results.get ⟨0, by decide⟩).pos + 5 +
      ((parse "00201A00301B").results.get ⟨0, by decide⟩).len ∧
    ((parse "00201A00301B").results.get ⟨0, by decide⟩).value.length =
      ((parse "00201A00301B").results.get ⟨0, by decide⟩).len :=
  ⟨((parse_value_length_and_offsets "00201A00301B").2 0 (by decide)).1,
   (parse_value_length_and_offsets "00201A00301B").1
     ((parse "00201A00301B").results.get ⟨0, by decide⟩)
     (List.get_mem (parse "00201A00301B").results 0 (by decide))⟩

/-- C5: the currency decorator fires only for key `"049"`; it left-pads the
value to 3 digits, returning the flag/ISO-code/name annotated value and the
matching detail on a table hit, and the unpadded original value with the
unknown-code message and no detail on a miss. -/
theorem formatCurrency_cases (value key : String) :
    (key ≠ "049" → formatCurrency value key = none) ∧
    (∀ c, currencyMapping.lookup (padStart value 3 '0') = some c →
      formatCurrency value "049" =
        some (c.flag ++ " " ++ c.code ++ " - " ++ c.name,
              some ⟨c.name, c.code, c.flag⟩)) ∧
    (currencyMapping.lookup (padStart value 3 '0') = none →
      formatCurrency value "049" =
        some (value ++ " (Unknown Currency Code)", none)) := by
  refine ⟨?_, ?_, ?_⟩
  · intro h
    rw [formatCurrency, if_pos h]
  · intro c h
    rw [formatCurrency, if_neg (by simp)]
    simp only [h]
  · intro h
    rw [formatCurrency, if_neg (by simp)]
    simp only [h]

/-- Witness for C5: a non-currency key, a known code and an unknown code. -/
theorem formatCurrency_cases_witness :
    formatCurrency "840" "026" = none ∧
    formatCurrency "840" "049" =
      some ("🇺🇸 USD - US Dollar", some ⟨"US Dollar", "USD", "🇺🇸"⟩) ∧
    formatCurrency "7" "049" = some ("7 (Unknown Currency Code)", none) :=
  ⟨(formatCurrency_cases "840" "026").1 (by decide),
   (formatCurrency_cases "840" "049").2.1 ⟨"US Dollar", "USD", "🇺🇸"⟩ (by decide),
   (formatCurrency_cases "7" "049").2.2 (by decide)⟩

theorem lookup_entry_mem : ∀ (l : List (String × String)) (k n : String),
    l.lookup k = some n → ∃ k2, (k2, n) ∈ l := by
  intro l
  induction l with
  | nil => intro k n h; simp [List.lookup] at h
  | cons p tl ih =>
    intro k n h
    rcases p with ⟨k2, v2⟩
    rw [List.lookup] at h
    split at h
    · exact ⟨k2, by simp_all⟩
    · obtain ⟨k3, hm⟩ := ih k n h
      exact ⟨k3, by simp [hm]⟩

theorem definitions_names_nonempty : ∀ p ∈ definitions, p.2 ≠ "" := by decide

/-- C6: field-name lookup is total: a key present in the directory resolves
to its registered name (in particular `"999"` resolves through the table to
`"Generic Key"`), any absent key (such as `"123"`) resolves to the literal
fallback `"Unknown"`, and every parsed entry's `name` is this lookup of its
key. -/
theorem lookupName_total (key : String) :
    (∀ n, definitions.lookup key = some n → lookupName key = n) ∧
    (definitions.lookup key = none → lookupName key = "Unknown") ∧
    lookupName "999" = "Generic Key" ∧
    definitions.lookup "999" = some "Generic Key" ∧
    lookupName "123" = "Unknown" ∧
    definitions.lookup "123" = none ∧
    ∀ s, ∀ e ∈ (parse s).results, e.name = lookupName e.key := by
  refine ⟨?_, ?_, by decide, by decide, by decide, by decide, ?_⟩
  · intro n h
    obtain ⟨k2, hmem⟩ := lookup_entry_mem definitions key n h
    have hne : n ≠ "" := definitions_names_nonempty (k2, n) hmem
    rw [lookupName, h]
    exact if_neg hne
  · intro h
    rw [lookupName, h]
  · intro s e he
    exact (parseLoop_fields (stripWS s) _ 0 e he).2.2.2.2.1

/-- Witness for C6 at the registered key "999" and the unregistered "123". -/
theorem lookupName_total_witness :
    lookupName "999" = "Generic Key" ∧ lookupName "123" = "Unknown" :=
  ⟨(lookupName_total "999").1 "Generic Key" (by decide),
   (lookupName_total "123").2.1 (by decide)⟩


/-- C7: `build` filters out entries with empty key or value and concatenates
zero-padded key, two-digit zero-padded decimal length and value for the rest
in input order, with the concrete example from §8. -/
theorem build_correct (entries : List KLVBuildEntry) :
    build entries = buildSpec entries ∧
    build [⟨"002", "AB48DE"⟩, ⟨"026", "4577"⟩] = "00206AB48DE026044577" := by
  refine ⟨?_, by decide⟩
  induction entries with
  | nil => rfl
  | cons e tl ih =>
    rw [buildSpec]
    by_cases h : e.key = "" ∨ e.value = ""
    · rw [if_pos h, String.empty_append, ← ih]
      show String.join (List.map _ (List.filter _ (e :: tl))) = _
      rw [List.filter_cons]
      have hq : (!(e.key == "") && !(e.value == "")) = false := by
        rcases h with h | h <;> simp [h]
      rw [hq]
      rfl
    · push_neg at h
      rw [if_neg (by push_neg; exact h), ← ih]
      show String.join (List.map _ (List.filter _ (e :: tl))) = _
      rw [List.filter_cons]
      have hq : (!(e.key == "") && !(e.value == "")) = true := by
        simp [h.1, h.2]
      rw [hq]
      rw [if_pos rfl, List.map_cons, join_cons]
      rfl


/-- C8: the delimited export is the fixed header line followed by one
double-quoted comma-joined row per entry in input order, rows joined by
newlines; the empty list yields just the header line. -/
theorem exportCSV_correct (results : List KLVEntry) :
    exportCSV results =
      "Key,Name,Length,Value,Position" ++ "\n" ++
        String.intercalate "\n" (results.map csvRowSpec) ∧
    exportCSV [] = "Key,Name,Length,Value,Position" ++ "\n" := by
  refine ⟨?_, by decide⟩
  have hq : ("\",\"" : String) = "\"" ++ "," ++ "\"" := by decide
  have hrow : ∀ r : KLVEntry,
      "\"" ++ r.key ++ "\",\"" ++ r.name ++ "\",\"" ++ Nat.repr r.len ++
      "\",\"" ++ r.value ++ "\",\"" ++ Nat.repr r.pos ++ "\"" = csvRowSpec r := by
    intro r
    simp only [csvRowSpec, hq, String.append_assoc]
  rw [exportCSV, List.map_congr_left (fun r _ => hrow r),
    show ("Key,Name,Length,Value,Position\n" : String) =
      "Key,Name,Length,Value,Position" ++ "\n" from by decide]

/-- C9: `parse` and `validate` are total functions of their input, and empty
or all-whitespace input yields no entries and no errors. -/
theorem parse_total_on_whitespace (s : String)
    (h : s.toList.all isJSWhitespace = true) :
    parse s = ⟨[], []⟩ ∧ validate s = ⟨true, 0, [], 0⟩ := by
  have hs : stripWS s = [] := by
    rw [stripWS, List.filter_eq_nil_iff]
    intro c hc
    simp [List.all_eq_true.mp h c hc]
  have hp : parse s = ⟨[], []⟩ := by
    simp [parse, hs, parseLoop]
  refine ⟨hp, ?_⟩
  simp [validate, hp, hs]

/-- Witness for C9: the empty string and an all-whitespace string containing
non-ASCII whitespace characters. -/
theorem parse_total_on_whitespace_witness :
    parse "" = ⟨[], []⟩ ∧ parse " \t 　" = ⟨[], []⟩ ∧
    validate " \t 　" = ⟨true, 0, [], 0⟩ :=
  ⟨(parse_total_on_whitespace "" (by decide)).1,
   (parse_total_on_whitespace " \t 　" (by decide)).1,
   (parse_total_on_whitespace " \t 　" (by decide)).2⟩

/-- Counterexample to C1 as stated: a value consisting of one space is
non-empty and shorter than 100 characters, yet the round trip loses the
entry entirely (the builder emits it but the parser strips the whitespace
and fails); and a one-digit key `"2"` comes back as the padded `"002"`,
not as the original pair. -/
theorem parse_build_roundtrip_counterexample :
    (parse (build [⟨"002", " "⟩])).results.map (fun e => (e.key, e.value)) = [] ∧
    build [⟨"002", " "⟩] = "00201 " ∧
    (parse (build [⟨"2", "A"⟩])).results.map (fun e => (e.key, e.value)) =
      [("002", "A")] := by decide

/-- C1 (amended): for build entries with non-empty all-digit keys of at most
3 characters and non-empty whitespace-free values shorter than 100
characters, parsing the built buffer yields no errors, reproduces the
(zero-padded key, value) pairs in order, gives each entry a length equal to
its value's character count, and chains the offsets from 0 by
`offset[i+1] = offset[i] + 5 + length[i]`. -/
theorem parse_build_roundtrip (entries : List KLVBuildEntry)
    (hgood : ∀ e ∈ entries, GoodEntry e) :
    (parse (build entries)).errors = [] ∧
    (parse (build entries)).results.map (fun e => (e.key, e.value)) =
      entries.map (fun e => (padStart e.key 3 '0', e.value)) ∧
    (parse (build entries)).results.map KLVEntry.len =
      entries.map (fun e => e.value.length) ∧
    Chained 0 (parse (build entries)).results := by
  have hfilter : entries.filter
      (fun entry => !(entry.key == "") && !(entry.value == "")) = entries := by
    rw [List.filter_eq_self]
    intro e he
    obtain ⟨h1, -, -, h2, -, -⟩ := hgood e he
    simp [h1, h2]
  have hdata : (build entries).data = (entries.map buildChunk).flatten := by
    rw [build, hfilter, join_data, List.map_map]
    congr 1
  have hnws : ∀ c ∈ (build entries).data, isJSWhitespace c = false := by
    intro c hc
    rw [hdata, List.mem_flatten] at hc
    obtain ⟨l, hl, hcl⟩ := hc
    rw [List.mem_map] at hl
    obtain ⟨e, he, rfl⟩ := hl
    obtain ⟨-, -, hkdig, -, hv100, hvws⟩ := hgood e he
    rw [buildChunk] at hcl
    rcases List.mem_append.mp hcl with hcl2 | hcl2
    · rcases List.mem_append.mp hcl2 with hcl3 | hcl3
      · exact digit_not_ws (List.all_eq_true.mp (padStart_digits hkdig) c hcl3)
      · exact digit_not_ws
          (List.all_eq_true.mp (lenRender e.value.length hv100).2.1 c hcl3)
    · have := List.all_eq_true.mp hvws c hcl2
      simpa using this
  have hstrip : stripWS (build entries) = (build entries).data := by
    show List.filter (fun c => !(isJSWhitespace c)) (build entries).data =
      (build entries).data
    rw [List.filter_eq_self]
    intro c hc
    simp [hnws c hc]
  obtain ⟨he, hm1, hm2⟩ := parseLoop_chunks (stripWS (build entries)) entries hgood
    ((stripWS (build entries)).length + 1) 0
    (by rw [List.drop_zero, hstrip, hdata]) (by omega) (by omega)
  exact ⟨he, hm1, hm2, parseLoop_chained _ _ 0⟩

/-- Witness for C1 at a two-entry list, one key needing padding. -/
theorem parse_build_roundtrip_witness :
    (∀ e ∈ ([⟨"002", "AB48DE"⟩, ⟨"26", "4577"⟩] : List KLVBuildEntry),
      GoodEntry e) ∧
    ((parse (build [⟨"002", "AB48DE"⟩, ⟨"26", "4577"⟩])).errors = [] ∧
     (parse (build [⟨"002", "AB48DE"⟩, ⟨"26", "4577"⟩])).results.map
         (fun e => (e.key, e.value)) =
       ([⟨"002", "AB48DE"⟩, ⟨"26", "4577"⟩] : List KLVBuildEntry).map
         (fun e => (padStart e.key 3 '0', e.value)) ∧
     (parse (build [⟨"002", "AB48DE"⟩, ⟨"26", "4577"⟩])).results.map
         KLVEntry.len =
       ([⟨"002", "AB48DE"⟩, ⟨"26", "4577"⟩] : List KLVBuildEntry).map
         (fun e => e.value.length) ∧
     Chained 0 (parse (build [⟨"002", "AB48DE"⟩, ⟨"26", "4577"⟩])).results) :=
  ⟨by decide, parse_build_roundtrip [⟨"002", "AB48DE"⟩, ⟨"26", "4577"⟩] (by decide)⟩

/-- C10: when a parse succeeds with no errors and every parsed value is
non-empty, rebuilding from the parsed (key, value) pairs reproduces exactly
the whitespace-stripped input, and the sum of `5 + len` over the entries is
the validator's total length. -/
theorem parse_then_build (s : String)
    (h1 : (parse s).errors = [])
    (h2 : ∀ e ∈ (parse s).results, e.value ≠ "") :
    build ((parse s).results.map (fun e => ⟨e.key, e.value⟩)) = ⟨stripWS s⟩ ∧
    ((parse s).results.map (fun e => 5 + e.len)).sum =
      (validate s).totalLength := by
  have hfields := parseLoop_fields (stripWS s) ((stripWS s).length + 1) 0
  have hrec := parseLoop_reconstruct (stripWS s) ((stripWS s).length + 1) 0
    (by omega) (by omega) h1
  rw [List.drop_zero] at hrec
  have hfilter : ((parse s).results.map
      (fun e => (⟨e.key, e.value⟩ : KLVBuildEntry))).filter
      (fun entry => !(entry.key == "") && !(entry.value == "")) =
      (parse s).results.map (fun e => ⟨e.key, e.value⟩) := by
    rw [List.filter_eq_self]
    intro b hb
    rw [List.mem_map] at hb
    obtain ⟨e, he, rfl⟩ := hb
    have hk := (hfields e he).1
    have hkne : e.key ≠ "" := by
      intro hke
      rw [hke] at hk
      simp at hk
    simp [hkne, h2 e he]
  have hdata : (build ((parse s).results.map (fun e => ⟨e.key, e.value⟩))).data =
      ((parse s).results.map chunkOf).flatten := by
    rw [build, hfilter, join_data, List.map_map, List.map_map]
    congr 1
    apply List.map_congr_left
    intro e he
    obtain ⟨hk3, -, hvl, -, -⟩ := hfields e he
    show (padStart e.key 3 '0' ++ padStart (Nat.repr e.value.length) 2 '0' ++
      e.value).data = chunkOf e
    have hkl : 3 ≤ e.key.length := by
      have : e.key.length = e.key.toList.length := rfl
      omega
    rw [String.data_append, String.data_append, padStart_of_le '0' hkl, hvl]
    rfl
  constructor
  · apply String.ext
    rw [hdata]
    exact hrec
  · have hlen := congrArg List.length hrec
    rw [List.length_flatten, List.map_map] at hlen
    have hmap : ((parseLoop (stripWS s) ((stripWS s).length + 1) 0).1).map
        (List.length ∘ chunkOf) =
        ((parseLoop (stripWS s) ((stripWS s).length + 1) 0).1).map
        (fun e => 5 + e.len) := by
      apply List.map_congr_left
      intro e he
      obtain ⟨hk3, -, hvl, hle99, -, -, -⟩ := hfields e he
      show (chunkOf e).length = 5 + e.len
      rw [chunkOf, List.length_append, List.length_append, hk3]
      have hpl2 := (lenRender e.len (by omega)).1
      have hv : e.value.toList.length = e.value.length := rfl
      omega
    rw [hmap] at hlen
    exact hlen

/-- Witness for C10 at an input containing whitespace. -/
theorem parse_then_build_witness :
    build ((parse "002 06AB48DE").results.map (fun e => ⟨e.key, e.value⟩)) =
      ⟨stripWS "002 06AB48DE"⟩ ∧
    ((parse "002 06AB48DE").results.map (fun e => 5 + e.len)).sum =
      (validate "002 06AB48DE").totalLength :=
  parse_then_build "002 06AB48DE" (by decide) (by decide)
